import Mathlib

/-!
Verification of `errudite/processor/spacy_annotator.py` against its
natural-language specification.

The Python module is a thin wrapper around spaCy: two custom tokenizers,
a stopword-removal helper, a model-loading fallback chain and two
installation-check helpers.  The external library (spaCy) and the process
environment (installed packages, filesystem) are modelled as explicit
parameters; everything the module itself computes is embedded faithfully,
statement by statement.
-/

set_option autoImplicit false

namespace SpacyAnnotatorModel

/-! ### Data model

A spaCy `Token` as far as this module observes it: the raw text, the lemma
(attribute `lemma_` in the source) and the punctuation flag (`is_punct`). -/

structure Token where
  text : String
  lemma_ : String
  is_punct : Bool
deriving Repr, DecidableEq

/-- A spaCy `Doc` as far as the custom tokenizers build it:
`Doc(self.vocab, words=words, spaces=spaces)` stores the word sequence and
the per-word trailing-space markers.  The vocabulary is irrelevant to the
claims and is omitted; the word payload type is a parameter so the
pass-through tokenizer can carry arbitrary pre-segmented units. -/
structure SimpleDoc (α : Type) where
  words : List α
  spaces : List Bool
deriving Repr, DecidableEq

/-! ### Custom tokenizers

`WhitespaceTokenizer.__call__` runs `words = text.split(' ')`.  Python's
`str.split(' ')` (with an explicit one-character separator) cuts the string
at every space character and keeps empty segments, so `"".split(' ') == ['']`
and `"a  b".split(' ') == ['a', '', 'b']`.  `pySplitSpace` is that function
on the character list of the input. -/

def pySplitSpace : List Char → List (List Char)
  | [] => [[]]
  | c :: cs =>
    let r := pySplitSpace cs
    if c = ' ' then [] :: r else (c :: r.headD []) :: r.tail

/-- `WhitespaceTokenizer.__call__`: split on the space character, give every
token a trailing-space marker (`spaces = [True] * len(words)`). -/
def whitespaceTokenize (text : List Char) : SimpleDoc (List Char) :=
  let words := pySplitSpace text
  { words := words, spaces := List.replicate words.length true }

/-- `NoOpTokenizer.__call__`: `words = text` (the input is used as the
already-segmented word sequence), `spaces = [True] * len(words)`. -/
def noOpTokenize {α : Type} (text : List α) : SimpleDoc α :=
  { words := text, spaces := List.replicate text.length true }

/-- Joining segments with a single space between consecutive segments:
the reconstruction that makes "space-delimited segments" precise. -/
def joinWithSpace : List (List Char) → List Char
  | [] => []
  | [w] => w
  | w :: w' :: ws => w ++ ' ' :: joinWithSpace (w' :: ws)

theorem pySplitSpace_ne_nil (l : List Char) : pySplitSpace l ≠ [] := by
  cases l with
  | nil => simp [pySplitSpace]
  | cons c cs =>
    simp only [pySplitSpace]
    split <;> simp

theorem length_pySplitSpace (l : List Char) :
    (pySplitSpace l).length = l.count ' ' + 1 := by
  induction l with
  | nil => simp [pySplitSpace]
  | cons c cs ih =>
    simp only [pySplitSpace]
    by_cases hc : c = ' '
    · subst hc
      simp [List.count_cons, ih]
    · obtain ⟨w, ws, hws⟩ := List.exists_cons_of_ne_nil (pySplitSpace_ne_nil cs)
      simp only [if_neg hc, hws]
      have := ih
      rw [hws] at this
      simp only [List.length_cons] at this ⊢
      rw [List.count_cons]
      simp [hc, this]

theorem joinWithSpace_pySplitSpace (l : List Char) :
    joinWithSpace (pySplitSpace l) = l := by
  induction l with
  | nil => simp [pySplitSpace, joinWithSpace]
  | cons c cs ih =>
    obtain ⟨w, ws, hws⟩ := List.exists_cons_of_ne_nil (pySplitSpace_ne_nil cs)
    simp only [pySplitSpace]
    by_cases hc : c = ' '
    · subst hc
      rw [if_pos rfl, hws]
      rw [hws] at ih
      simp [joinWithSpace, ih]
    · rw [if_neg hc, hws]
      rw [hws] at ih
      cases ws with
      | nil =>
        simp_all [joinWithSpace]
      | cons w' ws' =>
        simp_all [joinWithSpace]

theorem mem_pySplitSpace_no_space (l : List Char) :
    ∀ w ∈ pySplitSpace l, ' ' ∉ w := by
  induction l with
  | nil => simp [pySplitSpace]
  | cons c cs ih =>
    obtain ⟨w, ws, hws⟩ := List.exists_cons_of_ne_nil (pySplitSpace_ne_nil cs)
    simp only [pySplitSpace]
    by_cases hc : c = ' '
    · subst hc
      rw [if_pos rfl]
      intro u hu
      simp only [List.mem_cons] at hu
      rcases hu with hu | hu
      · simp [hu]
      · exact ih u hu
    · rw [if_neg hc, hws]
      rw [hws] at ih
      intro u hu
      simp only [List.headD_cons, List.tail_cons, List.mem_cons] at hu
      rcases hu with hu | hu
      · subst hu
        intro hmem
        simp only [List.mem_cons] at hmem
        rcases hmem with hmem | hmem
        · exact hc hmem.symm
        · exact ih w (by simp) hmem
      · exact ih u (by simp [hu])

/-! ### `remove_stopwords`

```
if not tokens and sentence_str:
    tokens = self.model(sentence_str)
elif not tokens:
    tokens = []
attr = 'lemma_' if use_lemma else 'text'
return ' '.join([getattr(token, attr) for token in tokens
    if not token.is_punct and token.text not in STOP_WORDS
       and token.lemma_ not in STOP_WORDS])
```

Python truthiness on the optional arguments: `not tokens` holds for `None`
and for the empty list; a string is truthy iff it is nonempty.  The pipeline
`self.model` is the external tokenizer, passed in as a function; the
imported constant `STOP_WORDS` lives outside this file's source and is
passed in as a list of strings. -/

/-- `bool(x)` for an optional list: `None` and `[]` are falsy. -/
def optListTruthy {α : Type} : Option (List α) → Bool
  | none => false
  | some l => !l.isEmpty

/-- `bool(x)` for an optional string: `None` and `""` are falsy. -/
def optStrTruthy : Option String → Bool
  | none => false
  | some s => !s.isEmpty

/-- The local `tokens` value after the two dispatch branches of
`remove_stopwords` have run. -/
def stopwordDispatch (model : String → List Token)
    (sentence_str : Option String) (tokens : Option (List Token)) :
    List Token :=
  if !optListTruthy tokens && optStrTruthy sentence_str then
    match sentence_str with
    | some s => model s
    | none => []
  else if !optListTruthy tokens then []
  else tokens.getD []

/-- The list-comprehension-and-join tail of `remove_stopwords`. -/
def stopwordJoin (stop_words : List String) (use_lemma : Bool)
    (tokens : List Token) : String :=
  String.intercalate " "
    ((tokens.filter fun token =>
        !token.is_punct && !stop_words.contains token.text
          && !stop_words.contains token.lemma_).map
      fun token => if use_lemma then token.lemma_ else token.text)

/-- `SpacyAnnotator.remove_stopwords`. -/
def remove_stopwords (model : String → List Token) (stop_words : List String)
    (sentence_str : Option String) (tokens : Option (List Token))
    (use_lemma : Bool) : String :=
  stopwordJoin stop_words use_lemma (stopwordDispatch model sentence_str tokens)

/-- The same call with the caller's token list threaded through as state.
The Python body contains no statement that writes into the caller's list or
its elements — `tokens = ...` only rebinds the local name, and the
comprehension only reads attributes — so the state handed back is the very
object the caller passed in. -/
def remove_stopwords_with_state (model : String → List Token)
    (stop_words : List String) (sentence_str : Option String)
    (caller_tokens : Option (List Token)) (use_lemma : Bool) :
    String × Option (List Token) :=
  (remove_stopwords model stop_words sentence_str caller_tokens use_lemma,
   caller_tokens)

/-- Tokens of the pipeline applied to `"the cat sat"`, for the concrete
example in the spec ("sat" lemmatizes to "sit"; none is punctuation). -/
def exampleTokens : List Token :=
  [⟨"the", "the", false⟩, ⟨"cat", "cat", false⟩, ⟨"sat", "sit", false⟩]

/-- A pipeline stub used only to instantiate the external `self.model`
parameter on the example sentence. -/
def exampleModel : String → List Token :=
  fun s => if s = "the cat sat" then exampleTokens else []

/-! ### `is_package`

```
name = name.lower()
packages = pkg_resources.working_set.by_key.keys()
for package in packages:
    if package.lower().replace('-', '_') == name:
        return True
    return False
```

The `return False` sits inside the loop body, so only the first installed
distribution is ever compared; with no installed distributions the loop
body never runs and the function falls through, returning Python's `None`.
The installed-distribution names are the `packages` parameter; the result
is `Option Bool` with `none` for that fall-through `None`. -/

/-- Python `s.lower()`, character by character. -/
def pyLower (s : String) : String :=
  String.mk (s.data.map Char.toLower)

/-- Python `s.replace('-', '_')`: the pattern and the replacement are
single characters, so this is a character map. -/
def hyphenToUnderscore (s : String) : String :=
  String.mk (s.data.map fun c => if c = '-' then '_' else c)

def is_package (name : String) (packages : List String) : Option Bool :=
  let name := pyLower name
  match packages with
  | [] => none
  | package :: _ => some (hyphenToUnderscore (pyLower package) == name)

/-- Modelled from the spec: the package-installed check as the spec states
it should behave — a case-insensitive, hyphen/underscore-normalized match
scanning the entire set of installed distribution names. -/
def is_package_full_scan (name : String) (packages : List String) : Bool :=
  packages.any fun package =>
    hyphenToUnderscore (pyLower package) == pyLower name

/-- Python truthiness of an `Option Bool` result (`None` is falsy), as used
by `if SpacyAnnotator.is_package(name):`. -/
def optBoolTruthy : Option Bool → Bool
  | none => false
  | some b => b

/-! ### `model_installed`

```
data_path = util.get_data_path()
if not data_path or not data_path.exists():
    raise IOError("Can't find spaCy data path: %s" % str(data_path))
if name in set([d.name for d in data_path.iterdir()]):
    return True
if SpacyAnnotator.is_package(name):
    return True
if Path(name).exists():
    return True
return False
```

The filesystem is a parameter: `util.get_data_path()` may return `None`
(modelled as `Option`), the data directory either exists or not and has a
set of child names, and `Path(name).exists()` is a predicate on names. -/

structure DataDir where
  exists_on_disk : Bool
  subdir_names : List String

structure FileSystem where
  data_path : Option DataDir
  path_exists : String → Bool

/-- `SpacyAnnotator.model_installed`; `Except.error` is the raised
`IOError`. -/
def model_installed (fs : FileSystem) (packages : List String)
    (name : String) : Except String Bool :=
  match fs.data_path with
  | none => Except.error "Cannot find spaCy data path: None"
  | some dir =>
    if !dir.exists_on_disk then
      Except.error "Cannot find spaCy data path"
    else if dir.subdir_names.contains name then Except.ok true
    else if optBoolTruthy (is_package name packages) then Except.ok true
    else if fs.path_exists name then Except.ok true
    else Except.ok false

/-! ### `load_lang_model`

```
if 'coref' in lang:
    try:
        return spacy.load(lang, disable=disable)
    except Exception as e:
        return SpacyAnnotator.load_lang_model(lang.split('_')[0], disable=disable)
try:
    return spacy.load(lang, disable=disable)
except OSError:
    spacy_download(lang)
    from spacy.cli import link
    from spacy.util import get_package_path
    package_path = get_package_path(lang)
    link(lang, lang, model_path=package_path)
    return spacy.load(lang, disable=disable)
```

`spacy.load` is external: it is modelled as a function of the requested
identifier and of how many downloads have happened so far (a download can
change what a subsequent load finds), returning a model, an `OSError`
("not found") or some other exception.  `spacy_download`, `get_package_path`
and `link` are recorded as trace events.  The recursion on
`lang.split('_')[0]` need not shrink the string (`'coref'` maps to itself),
so the embedding carries fuel and answers `none` when the fuel runs out. -/

inductive LoadResult (M : Type) where
  | ok : M → LoadResult M
  | osError : LoadResult M
  | otherError : LoadResult M
deriving Repr, DecidableEq

inductive LoadErr where
  | osErr : LoadErr
  | otherErr : LoadErr
deriving Repr, DecidableEq

inductive Event where
  | loadEv : String → Event
  | downloadEv : String → Event
  | linkEv : String → Event
deriving Repr, DecidableEq

/-- `'coref' in lang`: substring containment, checked at every suffix. -/
def hasCoref (lang : String) : Bool :=
  lang.data.tails.any fun t => List.isPrefixOf "coref".data t

/-- `lang.split('_')[0]`: the segment before the first underscore. -/
def baseLang (lang : String) : String :=
  String.mk (lang.data.takeWhile fun c => c ≠ '_')

/-- An uncaught exception corresponding to a `LoadResult` failure. -/
def toOutcome {M : Type} : LoadResult M → Except LoadErr M
  | .ok m => Except.ok m
  | .osError => Except.error .osErr
  | .otherError => Except.error .otherErr

/-- `SpacyAnnotator.load_lang_model`.  `load lang d` is the behaviour of
`spacy.load(lang, disable=disable)` after `d` downloads; the result carries
the outcome, the final download count and the trace of external calls.
`none` means the fuel ran out (the Python recursion did not return within
`fuel` nested calls). -/
def load_lang_model {M : Type} (load : String → Nat → LoadResult M) :
    Nat → String → Nat → Option (Except LoadErr M × Nat × List Event)
  | 0, _, _ => none
  | fuel + 1, lang, dls =>
    if hasCoref lang then
      match load lang dls with
      | .ok m => some (Except.ok m, dls, [.loadEv lang])
      | _ =>
        match load_lang_model load fuel (baseLang lang) dls with
        | none => none
        | some (r, d, evs) => some (r, d, .loadEv lang :: evs)
    else
      match load lang dls with
      | .ok m => some (Except.ok m, dls, [.loadEv lang])
      | .otherError => some (Except.error .otherErr, dls, [.loadEv lang])
      | .osError =>
        some (toOutcome (load lang (dls + 1)), dls + 1,
          [.loadEv lang, .downloadEv lang, .linkEv lang, .loadEv lang])

/-! ### Tokenizer installation in `SpacyAnnotator.__init__`

```
self.load()
if use_whitespace:
    self.model.tokenizer = WhitespaceTokenizer(self.model.vocab)
if pre_tokenized:
    self.model.tokenizer = NoOpTokenizer(self.model.vocab)
```

Two independent `if` statements (not `elif`), each overwriting the
pipeline's tokenizer attribute. -/

inductive TokenizerChoice where
  | modelDefault : TokenizerChoice
  | whitespace : TokenizerChoice
  | passThrough : TokenizerChoice
deriving Repr, DecidableEq

def init_tokenizer (use_whitespace pre_tokenized : Bool) : TokenizerChoice :=
  let t := TokenizerChoice.modelDefault
  let t := if use_whitespace then TokenizerChoice.whitespace else t
  let t := if pre_tokenized then TokenizerChoice.passThrough else t
  t

/-! ### Claim theorems -/

/-- Claim C5: the whitespace tokenizer splits on the space character only,
producing exactly count(spaces)+1 tokens which are the space-delimited
segments in order (they reconstruct the input when rejoined with single
spaces and contain no space themselves), and every token gets a
trailing-space marker. -/
theorem claim_C5_whitespace_tokenizer (text : List Char) :
    (whitespaceTokenize text).words.length = text.count ' ' + 1
    ∧ joinWithSpace (whitespaceTokenize text).words = text
    ∧ (∀ w ∈ (whitespaceTokenize text).words, ' ' ∉ w)
    ∧ (whitespaceTokenize text).spaces =
        List.replicate (whitespaceTokenize text).words.length true :=
  ⟨length_pySplitSpace text, joinWithSpace_pySplitSpace text,
   mem_pySplitSpace_no_space text, rfl⟩

/-- Claim C6: the pass-through tokenizer emits one token per input element,
preserving order and content, and assigns a trailing-space marker to every
token. -/
theorem claim_C6_pass_through_tokenizer (α : Type) (ws : List α) :
    (noOpTokenize ws).words = ws
    ∧ (noOpTokenize ws).spaces.length = (noOpTokenize ws).words.length
    ∧ ∀ b ∈ (noOpTokenize ws).spaces, b = true := by
  refine ⟨rfl, by simp [noOpTokenize], ?_⟩
  intro b hb
  exact List.eq_of_mem_replicate hb

/-- Claim C2: remove_stopwords keeps exactly the tokens that are neither
punctuation nor (by text or lemma) stop words, joins the chosen attribute
of the survivors with single spaces, and on the concrete example sentence
"the cat sat" with stop-word set containing "the" returns "cat sat". -/
theorem claim_C2_remove_stopwords :
    (∀ (model : String → List Token) (stop_words : List String)
        (toks : List Token) (use_lemma : Bool),
      remove_stopwords model stop_words none (some toks) use_lemma =
        String.intercalate " "
          ((toks.filter fun t =>
              !(t.is_punct || stop_words.contains t.text
                || stop_words.contains t.lemma_)).map
            fun t => if use_lemma then t.lemma_ else t.text))
    ∧ remove_stopwords exampleModel ["the"] (some "the cat sat") none false
        = "cat sat" := by
  constructor
  · intro model stop_words toks use_lemma
    have hfun :
        (fun (t : Token) =>
            !t.is_punct && !stop_words.contains t.text
              && !stop_words.contains t.lemma_)
          = fun (t : Token) =>
              !(t.is_punct || stop_words.contains t.text
                || stop_words.contains t.lemma_) := by
      funext t
      cases ht : t.is_punct <;> cases h1 : stop_words.contains t.text <;>
        cases h2 : stop_words.contains t.lemma_ <;> simp [ht, h1, h2]
    cases toks with
    | nil =>
      simp [remove_stopwords, stopwordDispatch, stopwordJoin,
        optListTruthy, optStrTruthy]
    | cons t ts =>
      simp only [remove_stopwords, stopwordDispatch, stopwordJoin,
        optListTruthy, optStrTruthy, List.isEmpty_cons, Bool.not_false,
        Bool.and_false, Bool.false_and, Bool.not_true, Bool.and_true,
        Bool.true_and, if_neg, ite_false, Option.getD_some, hfun]
      rfl
  · rfl

/-- Claim C7: with both arguments absent (and more generally for empty
string or empty token-list input) remove_stopwords returns the empty
string; being a total function of its inputs, it raises nothing. -/
theorem claim_C7_absent_input (model : String → List Token)
    (stop_words : List String) (use_lemma : Bool) :
    remove_stopwords model stop_words none none use_lemma = ""
    ∧ remove_stopwords model stop_words (some "") none use_lemma = ""
    ∧ remove_stopwords model stop_words none (some []) use_lemma = ""
    ∧ remove_stopwords model stop_words (some "") (some []) use_lemma = "" :=
  ⟨rfl, rfl, rfl, rfl⟩

/-- Claim C10: remove_stopwords builds a new joined string and hands the
caller's token list back unchanged; the returned string is the same pure
function of the inputs as the stateless embedding. -/
theorem claim_C10_no_mutation (model : String → List Token)
    (stop_words : List String) (sentence_str : Option String)
    (caller_tokens : Option (List Token)) (use_lemma : Bool) :
    (remove_stopwords_with_state model stop_words sentence_str caller_tokens
        use_lemma).2 = caller_tokens
    ∧ (remove_stopwords_with_state model stop_words sentence_str caller_tokens
        use_lemma).1
      = remove_stopwords model stop_words sentence_str caller_tokens
          use_lemma :=
  ⟨rfl, rfl⟩

/-- Claim C9: when both tokenizer flags are set at construction, the
pass-through tokenizer is the one finally installed, because its check runs
second. -/
theorem claim_C9_pass_through_wins :
    init_tokenizer true true = TokenizerChoice.passThrough
    ∧ ∀ w : Bool, init_tokenizer w true = TokenizerChoice.passThrough := by
  decide

/-- Claim C1: the claim demands a scan of the entire set of installed
distribution names, but the early return inside the loop makes is_package
decide after the first candidate only.  With distributions
["numpy", "flask"], the name "flask" is an installed distribution (the
full-scan predicate holds, witnessed by "flask" itself normalizing to the
lowercased name), yet is_package answers false. -/
theorem claim_C1_first_candidate_only :
    is_package "flask" ["numpy", "flask"] = some false
    ∧ is_package_full_scan "flask" ["numpy", "flask"] = true
    ∧ hyphenToUnderscore (pyLower "flask") = pyLower "flask" := by
  refine ⟨by decide, by decide, by decide⟩

/-- Claim C8: model_installed raises an I/O error exactly when the data
path is missing or does not exist on disk, and otherwise answers the
disjunction: name among the data directory's children, or recognized by
the package-installed check, or an existing filesystem path. -/
theorem claim_C8_model_installed (fs : FileSystem) (packages : List String)
    (name : String) :
    model_installed fs packages name =
      match fs.data_path with
      | none => Except.error "Cannot find spaCy data path: None"
      | some dir =>
        if dir.exists_on_disk then
          Except.ok (dir.subdir_names.contains name
            || optBoolTruthy (is_package name packages)
            || fs.path_exists name)
        else Except.error "Cannot find spaCy data path" := by
  unfold model_installed
  cases fs.data_path with
  | none => rfl
  | some dir =>
    cases hex : dir.exists_on_disk with
    | false => simp [hex]
    | true =>
      simp only [hex, Bool.not_true, Bool.false_eq_true, if_false, if_true]
      cases h1 : dir.subdir_names.contains name <;>
        cases h2 : optBoolTruthy (is_package name packages) <;>
          cases h3 : fs.path_exists name <;> simp [h1, h2, h3]

/-- Claim C3: for an identifier without the co-reference marker, a
"not found" (OSError) load triggers exactly one download, then the link
workaround, then exactly one retry whose outcome is returned; any other
load failure is returned as-is with no download, link or retry. -/
theorem claim_C3_download_retry {M : Type} (load : String → Nat → LoadResult M)
    (lang : String) (dls fuel : Nat) (hlang : hasCoref lang = false) :
    (load lang dls = LoadResult.osError →
      load_lang_model load (fuel + 1) lang dls =
        some (toOutcome (load lang (dls + 1)), dls + 1,
          [Event.loadEv lang, Event.downloadEv lang, Event.linkEv lang,
           Event.loadEv lang]))
    ∧ (load lang dls = LoadResult.otherError →
      load_lang_model load (fuel + 1) lang dls =
        some (Except.error LoadErr.otherErr, dls, [Event.loadEv lang])) := by
  constructor <;> intro h <;> simp [load_lang_model, hlang, h]

/-- A load oracle for the witness: everything is "not found" until one
download has happened, after which loading yields a model. -/
def witnessLoad : String → Nat → LoadResult Nat :=
  fun _ d => if d = 0 then LoadResult.osError else LoadResult.ok 7

/-- Witness for claim C3 at the concrete identifier "en_core_web_sm". -/
theorem claim_C3_witness :
    hasCoref "en_core_web_sm" = false
    ∧ witnessLoad "en_core_web_sm" 0 = LoadResult.osError
    ∧ load_lang_model witnessLoad 1 "en_core_web_sm" 0 =
        some (Except.ok 7, 1,
          [Event.loadEv "en_core_web_sm", Event.downloadEv "en_core_web_sm",
           Event.linkEv "en_core_web_sm", Event.loadEv "en_core_web_sm"]) := by
  refine ⟨by decide, rfl, ?_⟩
  exact (claim_C3_download_retry witnessLoad "en_core_web_sm" 0 0
    (by decide)).1 rfl

/-- Counterexample to claim C4 as stated: the fallback load of the base
identifier can raise.  With a load oracle that always fails with a
non-OSError exception, loading "en_coref_sm" recurses once to "en" and the
whole call raises that exception instead of returning without raising. -/
theorem claim_C4_counterexample :
    hasCoref "en_coref_sm" = true
    ∧ baseLang "en_coref_sm" = "en"
    ∧ load_lang_model (fun _ _ => (LoadResult.otherError : LoadResult Nat))
        5 "en_coref_sm" 0 =
      some (Except.error LoadErr.otherErr, 0,
        [Event.loadEv "en_coref_sm", Event.loadEv "en"]) := by
  refine ⟨by decide, rfl, rfl⟩

/-- `True` exactly for a successful load result. -/
def loadSucceeded {M : Type} : LoadResult M → Bool
  | .ok _ => true
  | _ => false

/-- Claim C4 (amended): for an identifier with the co-reference marker
whose base segment (before the first underscore) lacks the marker, any
direct-load failure causes exactly one recursion on the base identifier,
whose result — raising or not — becomes the result of the whole call; in
particular when the direct load of the base identifier succeeds, the
fallback returns its model without raising and performs no further
recursion or download. -/
theorem claim_C4_coref_fallback {M : Type} (load : String → Nat → LoadResult M)
    (lang : String) (dls fuel : Nat)
    (hc : hasCoref lang = true)
    (hb : hasCoref (baseLang lang) = false)
    (hfail : loadSucceeded (load lang dls) = false) :
    load_lang_model load (fuel + 2) lang dls =
      (load_lang_model load (fuel + 1) (baseLang lang) dls).map
        (fun r => (r.1, r.2.1, Event.loadEv lang :: r.2.2))
    ∧ ∀ m : M, load (baseLang lang) dls = LoadResult.ok m →
        load_lang_model load (fuel + 2) lang dls =
          some (Except.ok m, dls,
            [Event.loadEv lang, Event.loadEv (baseLang lang)]) := by
  have hstep :
      load_lang_model load (fuel + 2) lang dls =
        (load_lang_model load (fuel + 1) (baseLang lang) dls).map
          (fun r => (r.1, r.2.1, Event.loadEv lang :: r.2.2)) := by
    conv_lhs => rw [load_lang_model]
    rw [hc]
    cases hl : load lang dls with
    | ok m => rw [hl] at hfail; simp [loadSucceeded] at hfail
    | osError =>
      cases hrec : load_lang_model load (fuel + 1) (baseLang lang) dls with
      | none => rfl
      | some r => obtain ⟨r₁, r₂, r₃⟩ := r; rfl
    | otherError =>
      cases hrec : load_lang_model load (fuel + 1) (baseLang lang) dls with
      | none => rfl
      | some r => obtain ⟨r₁, r₂, r₃⟩ := r; rfl
  refine ⟨hstep, ?_⟩
  intro m hm
  rw [hstep]
  conv_lhs => rw [load_lang_model]
  rw [hb, hm]
  rfl

/-- A load oracle for the amended-claim witness: the base identifier "en"
loads fine, everything else fails with a non-OSError exception. -/
def witnessCorefLoad : String → Nat → LoadResult Nat :=
  fun s _ => if s = "en" then LoadResult.ok 3 else LoadResult.otherError

/-- Witness for the amended claim C4 at "en_coref_sm". -/
theorem claim_C4_coref_fallback_witness :
    hasCoref "en_coref_sm" = true
    ∧ hasCoref (baseLang "en_coref_sm") = false
    ∧ loadSucceeded (witnessCorefLoad "en_coref_sm" 0) = false
    ∧ load_lang_model witnessCorefLoad 2 "en_coref_sm" 0 =
        some (Except.ok 3, 0,
          [Event.loadEv "en_coref_sm", Event.loadEv (baseLang "en_coref_sm")]) := by
  refine ⟨by decide, by decide, rfl, ?_⟩
  exact (claim_C4_coref_fallback witnessCorefLoad "en_coref_sm" 0 0
    (by decide) (by decide) rfl).2 3 rfl

end SpacyAnnotatorModel
